import Mathlib

/-
Verification of the hudsucker MITM proxy core (src/proxy/mod.rs) against its
natural-language specification.  The Rust source is shallowly embedded below:
the accept/shutdown loop of `Proxy::start`, the per-connection serving task,
the default HTTP/1 server configuration of `Proxy::service`/`Proxy::start`,
and the socket-address literal used by `Proxy::service`.  Components of the
repository that are referenced by the spec but whose code is not in the
`src/proxy/mod.rs` surface (the request pipeline in `InternalProxy::proxy`,
the certificate issuer, the WebSocket bridge) are modelled from the spec;
each such definition says so in its doc comment.
-/

set_option autoImplicit false

namespace Hudsucker

/-! ## Socket addresses and the address parser

`Proxy::service` evaluates `"127.0.0.1:80".parse().unwrap()`.  We embed an
IPv4 `host:port` socket-address parser mirroring the structure of Rust's
`SocketAddrV4` parser (split at `:`, four dot-separated decimal octets
bounded by 255, decimal port bounded by 65535). -/

structure SocketAddr where
  octet0 : Nat
  octet1 : Nat
  octet2 : Nat
  octet3 : Nat
  port : Nat
deriving DecidableEq

/-- Split a character list at every occurrence of a separator. -/
def splitOnChar (sep : Char) : List Char → List (List Char)
  | [] => [[]]
  | c :: rest =>
    let groups := splitOnChar sep rest
    if c = sep then [] :: groups
    else
      match groups with
      | [] => [[c]]
      | g :: gs => (c :: g) :: gs

/-- Decimal digit value of a character, if it is a digit. -/
def digitVal (c : Char) : Option Nat :=
  if c.isDigit then some (c.toNat - 48) else none

/-- Parse a nonempty all-digit character list as a decimal number. -/
def parseNatChars : List Char → Option Nat
  | [] => none
  | cs => cs.foldlM (fun acc c => (digitVal c).map (fun d => acc * 10 + d)) 0

/-- Parse one IPv4 octet (decimal, at most 255). -/
def parseOctet (cs : List Char) : Option Nat := do
  let n ← parseNatChars cs
  if n ≤ 255 then some n else none

/-- Parse an `a.b.c.d:port` socket address, as `str::parse::<SocketAddr>`
does for IPv4 addresses. -/
def parseSocketAddr (s : String) : Option SocketAddr :=
  match splitOnChar ':' s.toList with
  | [ip, portChars] =>
    match splitOnChar '.' ip with
    | [w, x, y, z] => do
      let a ← parseOctet w
      let b ← parseOctet x
      let c ← parseOctet y
      let d ← parseOctet z
      let p ← parseNatChars portChars
      if p ≤ 65535 then some ⟨a, b, c, d, p⟩ else none
    | _ => none
  | _ => none

/-! ## Default HTTP/1 server configuration

`Proxy::service` and `Proxy::start` both build the server with
`auto::Builder::new(..)` and enable `.http1().title_case_headers(true)
.preserve_header_case(true)` when `self.server` is `None`
(src/proxy/mod.rs lines 104-111 and 136-143). -/

structure Http1ServerConfig where
  titleCaseHeaders : Bool
  preserveHeaderCase : Bool
deriving DecidableEq

/-- The default server configuration built by `Proxy::service` and
`Proxy::start` when no explicit server builder was supplied. -/
def defaultServerConfig : Http1ServerConfig :=
  { titleCaseHeaders := true, preserveHeaderCase := true }

/-- `self.server.unwrap_or_else(default)` from the source. -/
def resolveServer : Option Http1ServerConfig → Http1ServerConfig
  | some cfg => cfg
  | none => defaultServerConfig

/-! ## Headers and header serialization -/

structure Header where
  name : String
  value : String
deriving DecidableEq

/-- Rewrite a header name to HTTP title case: the first character and every
character following a hyphen are uppercased, all others lowercased. -/
def titleCaseChars : List Char → Bool → List Char
  | [], _ => []
  | c :: rest, atWordStart =>
    if c = '-' then c :: titleCaseChars rest true
    else (if atWordStart then c.toUpper else c.toLower) :: titleCaseChars rest false

def titleCaseName (s : String) : String :=
  String.mk (titleCaseChars s.toList true)

/-- Modelled from the spec: the HTTP/1 serialization layer (hyper) writing
headers to the wire.  When header-case preservation is enabled the received
names and their order are written back byte-for-byte; otherwise, with
title-casing enabled, names are rewritten to title case.  The serializer
itself is not part of src/proxy/mod.rs; only its configuration flags are. -/
def writeHeaders (cfg : Http1ServerConfig) (hs : List Header) : List Header :=
  if cfg.preserveHeaderCase then hs
  else if cfg.titleCaseHeaders then
    hs.map (fun h => { h with name := titleCaseName h.name })
  else hs

/-- Modelled from the spec: the header path through the pipeline — the
handler may transform request headers before they are forwarded upstream and
response headers before they are returned, after which each set passes
through the configured serializer. -/
def forwardHeaders (cfg : Http1ServerConfig)
    (reqTransform respTransform : List Header → List Header)
    (reqHeaders respHeaders : List Header) : List Header × List Header :=
  (writeHeaders cfg (reqTransform reqHeaders),
   writeHeaders cfg (respTransform respHeaders))

/-! ## Request pipeline

Modelled from the spec (§4.3 RequestPipeline): `InternalProxy::proxy` is not
part of the src/proxy/mod.rs surface; only its invocation sites are. -/

structure HttpRequest where
  path : String
  headers : List Header
deriving DecidableEq

structure HttpResponse where
  status : Nat
  headers : List Header
  body : String
deriving DecidableEq

/-- The result of `RequestResponseHandler.on_request`: either a replacement
request to continue with, or a synthetic response that short-circuits. -/
inductive RequestOrResponse where
  | request (r : HttpRequest)
  | response (r : HttpResponse)

/-- Modelled from the spec: the interception and transport capabilities the
pipeline is wired with (§4.3, §6). -/
structure PipelineEnv where
  onRequest : HttpRequest → SocketAddr → RequestOrResponse
  onResponse : HttpResponse → SocketAddr → HttpResponse
  transport : HttpRequest → Except String HttpResponse

/-- The synthetic gateway-error response produced on upstream transport
failure. -/
def badGateway : HttpResponse :=
  { status := 502, headers := [], body := "" }

/-- Observable outcome of one exchange: the response returned to the client
and whether the outbound transport was invoked. -/
structure ExchangeResult where
  response : HttpResponse
  transportInvoked : Bool
deriving DecidableEq

/-- Modelled from the spec: `RequestPipeline.handle` (§4.3).  Invoke
`on_request`; a synthetic response short-circuits (the transport is never
contacted).  Otherwise forward via the transport; a transport failure is
surfaced as a 502-class synthetic response; on success `on_response` may
replace the response. -/
def handleRequest (env : PipelineEnv) (clientAddr : SocketAddr)
    (req : HttpRequest) : ExchangeResult :=
  match env.onRequest req clientAddr with
  | RequestOrResponse.response res =>
    { response := res, transportInvoked := false }
  | RequestOrResponse.request req2 =>
    match env.transport req2 with
    | Except.error _ => { response := badGateway, transportInvoked := true }
    | Except.ok res =>
      { response := env.onResponse res clientAddr, transportInvoked := true }

/-- Modelled from the spec: within one client connection, requests are
processed in order, each through the pipeline; an exchange-level failure
never tears the connection down (§5 ordering, §7 UpstreamError). -/
def serveConnection (env : PipelineEnv) (clientAddr : SocketAddr)
    (reqs : List HttpRequest) : List ExchangeResult :=
  reqs.map (handleRequest env clientAddr)

/-! ## Certificate issuer

Modelled from the spec (§4.1 CertificateIssuer, §2, §3 CertificateCache):
the certificate-authority module is not part of src/proxy/mod.rs. -/

/-- A TLS server identity: the hostname its subject/SAN covers, and its key
material (abstracted as an identifier). -/
structure ServerIdentity where
  subjectHost : String
  keyId : Nat
deriving DecidableEq

/-- Modelled from the spec: the CertificateAuthority capability — given a
hostname, mints a leaf identity valid for that hostname (subject/SAN is the
hostname), signed by the configured root. -/
structure CertAuthority where
  keyFor : String → Nat

def CertAuthority.mintFor (ca : CertAuthority) (host : String) : ServerIdentity :=
  { subjectHost := host, keyId := ca.keyFor host }

/-- The per-hostname certificate cache: hostname to previously issued
identity. -/
abbrev CertCache : Type := List (String × ServerIdentity)

def lookupCache : CertCache → String → Option ServerIdentity
  | [], _ => none
  | (h, ident) :: rest, host => if h = host then some ident else lookupCache rest host

/-- Cache well-formedness: every cached identity was issued for the hostname
it is filed under. -/
def cacheWF (cache : CertCache) : Prop :=
  ∀ p ∈ cache, (p.2).subjectHost = p.1

/-- Modelled from the spec: `CertificateIssuer.issue` (§4.1) — look up the
cache; on a miss ask the authority to mint a leaf for the hostname, store
it, return it. -/
def issue (ca : CertAuthority) (cache : CertCache) (host : String) :
    ServerIdentity × CertCache :=
  match lookupCache cache host with
  | some ident => (ident, cache)
  | none =>
    let ident := ca.mintFor host
    (ident, (host, ident) :: cache)

/-! ## WebSocket bridge

Modelled from the spec (§4.4 WebSocketBridge): the relay loops are not part
of src/proxy/mod.rs. -/

structure Frame where
  payload : Nat
deriving DecidableEq

/-- Modelled from the spec: one relay direction — each frame read from the
source stream goes through the frame handler; the result, if any, is written
to the destination stream; a dropped frame (`none`) is not written. -/
def relay (handler : Frame → Option Frame) (frames : List Frame) : List Frame :=
  frames.filterMap handler

structure BridgeOutput where
  toOrigin : List Frame
  toClient : List Frame
deriving DecidableEq

/-- Modelled from the spec: the bridge runs the two relay directions
concurrently and independently — client-to-origin through
`on_client_frame`, origin-to-client through `on_server_frame` (§4.4). -/
def bridge (onClientFrame onServerFrame : Frame → Option Frame)
    (clientFrames serverFrames : List Frame) : BridgeOutput :=
  { toOrigin := relay onClientFrame clientFrames,
    toClient := relay onServerFrame serverFrames }

/-! ## The accept/shutdown loop of `Proxy::start`

Embeds src/proxy/mod.rs lines 135-210.  The nondeterminism of the runtime
(which `select!` arm fires, whether an accept succeeds) is resolved by an
event trace; the loop's reaction to each event is taken from the source. -/

/-- One accepted connection, together with the runtime facts that resolve
the per-connection task's `select!`: whether the shutdown guard fired before
the connection future completed, and how serving the connection ended. -/
structure ConnSpec where
  clientAddr : SocketAddr
  cancelledFirst : Bool
  connResult : Except String Unit

/-- One iteration of the accept loop's `select!`: either the `accept` arm
resolves (successfully or not), or the shutdown guard's `cancelled` arm
resolves. -/
inductive LoopEvent where
  | accept (res : Except String ConnSpec)
  | shutdownSignal

/-- The connections the accept loop spawns a task for, given the event
trace: an `Ok` accept spawns, a failed accept is logged and the loop
continues, and the shutdown signal breaks the loop (no later event is
processed). -/
def acceptedConns : List LoopEvent → List ConnSpec
  | [] => []
  | LoopEvent.shutdownSignal :: _ => []
  | LoopEvent.accept (Except.ok c) :: rest => c :: acceptedConns rest
  | LoopEvent.accept (Except.error _) :: rest => acceptedConns rest

/-- Terminal state of one spawned per-connection task. -/
structure ConnTaskResult where
  gracefulRequested : Bool
  connAwaited : Bool
  loggedError : Option String
  exited : Bool

/-- The per-connection task body (src/proxy/mod.rs lines 171-199): `select!`
between the connection future and `guard.cancelled()`; if cancelled fires
first, call `graceful_shutdown()` on the connection and still await it; a
serving error is logged; either way the task runs to completion. -/
def runConnTask (c : ConnSpec) : ConnTaskResult :=
  let logged : Option String :=
    match c.connResult with
    | Except.error e => some e
    | Except.ok _ => none
  if c.cancelledFirst then
    { gracefulRequested := true, connAwaited := true, loggedError := logged,
      exited := true }
  else
    { gracefulRequested := false, connAwaited := true, loggedError := logged,
      exited := true }

/-- `AddrOrListener` from the builder: either an address to bind or a
pre-opened listener. -/
inductive AddrOrListener where
  | addr (a : SocketAddr)
  | listener (id : Nat)

/-- The error returned by `Proxy::start`: only binding can fail. -/
inductive ProxyError where
  | bind (e : String)
deriving DecidableEq

/-- What `Proxy::start` has done by the time it returns `Ok`: the
connections it spawned tasks for, and the terminal state of every one of
those tasks (`shutdown.shutdown().await` joins them all before `start`
returns). -/
structure StartResult where
  spawned : List ConnSpec
  tasks : List ConnTaskResult

/-- `Proxy::start` (src/proxy/mod.rs lines 135-210): bind if an address was
configured (a bind failure returns the error immediately), then run the
accept loop over the event trace, then await every spawned task. -/
def start (al : AddrOrListener) (bindFn : SocketAddr → Except String Nat)
    (events : List LoopEvent) : Except ProxyError StartResult :=
  let run : StartResult :=
    let conns := acceptedConns events
    { spawned := conns, tasks := conns.map runConnTask }
  match al with
  | AddrOrListener.addr a =>
    match bindFn a with
    | Except.error e => Except.error (ProxyError.bind e)
    | Except.ok _ => Except.ok run
  | AddrOrListener.listener _ => Except.ok run

/-! ## `Proxy::service` -/

/-- The per-request `InternalProxy` value built by the `service_fn` closure
in `Proxy::service` (src/proxy/mod.rs lines 117-128), reduced to the field
the claims observe. -/
structure InternalProxyCtx where
  clientAddr : SocketAddr
deriving DecidableEq

/-- The context `Proxy::service` constructs for each dispatched request.
The closure never sees the actual peer address (it is a parameter here only
to state that it is ignored); `client_addr` is always
`"127.0.0.1:80".parse().unwrap()`, `none` standing for a parse panic. -/
def serviceCtxForRequest (_actualPeer : SocketAddr) (_req : HttpRequest) :
    Option InternalProxyCtx :=
  (parseSocketAddr "127.0.0.1:80").map (fun a => { clientAddr := a })

/-! ## Sample values used by the concrete witnesses -/

def localAddr : SocketAddr := ⟨127, 0, 0, 1, 80⟩

def sampleConn : ConnSpec := ⟨localAddr, true, Except.ok ()⟩

def sampleConn2 : ConnSpec := ⟨⟨10, 0, 0, 2, 80⟩, false, Except.ok ()⟩

def failingConn : ConnSpec := ⟨localAddr, false, Except.error "reset"⟩

def failingBind : SocketAddr → Except String Nat := fun _ => Except.error "inuse"

def sampleResult : StartResult := ⟨[sampleConn], [runConnTask sampleConn]⟩

/-! ## Helper lemmas -/

/-- Events after the shutdown signal contribute no accepted connection. -/
theorem acceptedConns_append_shutdown (pre post : List LoopEvent) :
    acceptedConns (pre ++ LoopEvent.shutdownSignal :: post) = acceptedConns pre := by
  induction pre with
  | nil => rfl
  | cons e rest ih =>
    cases e with
    | shutdownSignal => rfl
    | accept r =>
      cases r with
      | ok c => simp [acceptedConns, ih]
      | error msg => simp [acceptedConns, ih]

/-- A failed accept is skipped: the loop continues exactly as if the event
had not occurred. -/
theorem acceptedConns_skip_error (pre post : List LoopEvent) (e : String) :
    acceptedConns (pre ++ LoopEvent.accept (Except.error e) :: post)
      = acceptedConns (pre ++ post) := by
  induction pre with
  | nil => rfl
  | cons ev rest ih =>
    cases ev with
    | shutdownSignal => rfl
    | accept r =>
      cases r with
      | ok c => simp [acceptedConns, ih]
      | error msg => simp [acceptedConns, ih]

/-- Every per-connection task runs to completion. -/
theorem runConnTask_exited (c : ConnSpec) : (runConnTask c).exited = true := by
  cases hc : c.cancelledFirst <;> simp [runConnTask, hc]

/-- Inversion for `start`: a successful return carries exactly the spawned
connections and their joined task results. -/
theorem start_ok_inv (al : AddrOrListener) (bindFn : SocketAddr → Except String Nat)
    (events : List LoopEvent) (r : StartResult)
    (h : start al bindFn events = Except.ok r) :
    r = { spawned := acceptedConns events,
          tasks := (acceptedConns events).map runConnTask } := by
  cases al with
  | addr a =>
    cases hb : bindFn a with
    | error e => simp [start, hb] at h
    | ok n =>
      simp [start, hb] at h
      exact h.symm
  | listener n =>
    simp [start] at h
    exact h.symm

/-! ## Claims -/

/-- Claim C1: for every run of `Proxy::start`, once the graceful-shutdown
signal resolves, the accept loop admits no further connections (only events
before the signal contribute spawned connections), and `start` returns only
after every spawned per-connection task has exited (the returned result
joins each spawned task at its terminal state, and each has exited). -/
theorem start_shutdown_stops_accepting_and_joins_all
    (al : AddrOrListener) (bindFn : SocketAddr → Except String Nat)
    (pre post : List LoopEvent) (r : StartResult)
    (h : start al bindFn (pre ++ LoopEvent.shutdownSignal :: post) = Except.ok r) :
    r.spawned = acceptedConns pre
    ∧ r.tasks = r.spawned.map runConnTask
    ∧ ∀ t ∈ r.tasks, t.exited = true := by
  have hr := start_ok_inv al bindFn (pre ++ LoopEvent.shutdownSignal :: post) r h
  subst hr
  refine ⟨acceptedConns_append_shutdown pre post, ?_, ?_⟩
  · simp [acceptedConns_append_shutdown pre post]
  · intro t ht
    simp at ht
    obtain ⟨c, _, hc⟩ := ht
    exact hc ▸ runConnTask_exited c

/-- Witness for C1 at a concrete trace: one connection accepted before the
signal, one accept event after it. -/
theorem start_shutdown_stops_accepting_and_joins_all_witness :
    sampleResult.spawned = acceptedConns [LoopEvent.accept (Except.ok sampleConn)]
    ∧ sampleResult.tasks = sampleResult.spawned.map runConnTask
    ∧ ∀ t ∈ sampleResult.tasks, t.exited = true :=
  start_shutdown_stops_accepting_and_joins_all (AddrOrListener.listener 0)
    (fun _ => Except.ok 0)
    [LoopEvent.accept (Except.ok sampleConn)]
    [LoopEvent.accept (Except.ok sampleConn2)]
    sampleResult rfl

/-- Claim C8: every connection in flight when the shutdown signal resolves
is asked to perform a graceful close, and its connection future is still
awaited afterwards rather than aborted. -/
theorem conn_task_graceful_close_on_cancel (c : ConnSpec)
    (h : c.cancelledFirst = true) :
    (runConnTask c).gracefulRequested = true ∧ (runConnTask c).connAwaited = true := by
  simp [runConnTask, h]

/-- Witness for C8 at a concrete in-flight connection. -/
theorem conn_task_graceful_close_on_cancel_witness :
    (runConnTask sampleConn).gracefulRequested = true
    ∧ (runConnTask sampleConn).connAwaited = true :=
  conn_task_graceful_close_on_cancel sampleConn rfl

/-- Claim C4: per-connection and per-exchange errors are isolated — a
failed accept is skipped and the loop continues; a failed connection's task
runs to completion with the error reported, and sibling tasks' results are
computed independently of it; and `start` returns an error exactly when an
address was configured and binding it failed. -/
theorem per_connection_errors_never_fatal
    (pre post : List LoopEvent) (e : String)
    (conns1 conns2 : List ConnSpec) (c : ConnSpec) (msg : String)
    (hc : c.connResult = Except.error msg)
    (al : AddrOrListener) (bindFn : SocketAddr → Except String Nat)
    (events : List LoopEvent) :
    acceptedConns (pre ++ LoopEvent.accept (Except.error e) :: post)
      = acceptedConns (pre ++ post)
    ∧ (conns1 ++ c :: conns2).map runConnTask
      = conns1.map runConnTask ++ runConnTask c :: conns2.map runConnTask
    ∧ (runConnTask c).exited = true
    ∧ (runConnTask c).loggedError = some msg
    ∧ ((∃ err, start al bindFn events = Except.error err)
      ↔ ∃ a m, al = AddrOrListener.addr a ∧ bindFn a = Except.error m) := by
  refine ⟨acceptedConns_skip_error pre post e, by simp, runConnTask_exited c, ?_, ?_⟩
  · cases hf : c.cancelledFirst <;> simp [runConnTask, hf, hc]
  · constructor
    · rintro ⟨err, herr⟩
      cases al with
      | addr a =>
        cases hb : bindFn a with
        | error m => exact ⟨a, m, rfl, hb⟩
        | ok n => simp [start, hb] at herr
      | listener n => simp [start] at herr
    · rintro ⟨a, m, ha, hb⟩
      subst ha
      exact ⟨ProxyError.bind m, by simp [start, hb]⟩

/-- Witness for C4 at concrete inputs: a concrete failing accept, a
concrete failing connection, and a failing bind. -/
theorem per_connection_errors_never_fatal_witness :
    acceptedConns ([] ++ LoopEvent.accept (Except.error "oops") :: [])
      = acceptedConns ([] ++ [])
    ∧ ([] ++ failingConn :: []).map runConnTask
      = ([] : List ConnSpec).map runConnTask
        ++ runConnTask failingConn :: ([] : List ConnSpec).map runConnTask
    ∧ (runConnTask failingConn).exited = true
    ∧ (runConnTask failingConn).loggedError = some "reset"
    ∧ ((∃ err, start (AddrOrListener.addr localAddr) failingBind [] = Except.error err)
      ↔ ∃ a m, AddrOrListener.addr localAddr = AddrOrListener.addr a
          ∧ failingBind a = Except.error m) :=
  per_connection_errors_never_fatal [] [] "oops" [] [] failingConn "reset" rfl
    (AddrOrListener.addr localAddr) failingBind []

/-- Claim C5: if the proxy was configured with a listen address and binding
it fails, `Proxy::start` returns the bind error, and never a successful
result — no connection is accepted and no per-connection state exists. -/
theorem bind_failure_fatal_before_any_state
    (a : SocketAddr) (bindFn : SocketAddr → Except String Nat) (e : String)
    (events : List LoopEvent) (hb : bindFn a = Except.error e) :
    start (AddrOrListener.addr a) bindFn events = Except.error (ProxyError.bind e)
    ∧ ∀ r : StartResult, start (AddrOrListener.addr a) bindFn events ≠ Except.ok r := by
  constructor
  · simp [start, hb]
  · intro r hr
    simp [start, hb] at hr

/-- Witness for C5 at a concrete failing bind, with a nonempty pending
event trace. -/
theorem bind_failure_fatal_before_any_state_witness :
    start (AddrOrListener.addr localAddr) failingBind
        [LoopEvent.accept (Except.ok sampleConn)]
      = Except.error (ProxyError.bind "inuse")
    ∧ ∀ r : StartResult, start (AddrOrListener.addr localAddr) failingBind
        [LoopEvent.accept (Except.ok sampleConn)] ≠ Except.ok r :=
  bind_failure_fatal_before_any_state localAddr failingBind "inuse"
    [LoopEvent.accept (Except.ok sampleConn)] rfl

/-- Claim C2: under the default server configuration (no explicit server
builder supplied, so header-case preservation is enabled), the header case
and ordering of a request whose headers no handler mutates are preserved
byte-for-byte when the request is forwarded upstream and when the response
is returned. -/
theorem default_config_preserves_unmutated_headers
    (reqTransform respTransform : List Header → List Header)
    (reqHeaders respHeaders : List Header)
    (h1 : reqTransform reqHeaders = reqHeaders)
    (h2 : respTransform respHeaders = respHeaders) :
    forwardHeaders (resolveServer none) reqTransform respTransform
      reqHeaders respHeaders = (reqHeaders, respHeaders) := by
  simp [forwardHeaders, resolveServer, defaultServerConfig, writeHeaders, h1, h2]

/-- Witness for C2: pass-through handlers and concretely mixed-case
headers survive the default pipeline unchanged. -/
theorem default_config_preserves_unmutated_headers_witness :
    forwardHeaders (resolveServer none) (fun hs => hs) (fun hs => hs)
      [⟨"x-CuStOm-HeAdEr", "v1"⟩, ⟨"ACCEPT", "t"⟩] [⟨"sErVeR", "h"⟩]
      = ([⟨"x-CuStOm-HeAdEr", "v1"⟩, ⟨"ACCEPT", "t"⟩], [⟨"sErVeR", "h"⟩]) :=
  default_config_preserves_unmutated_headers (fun hs => hs) (fun hs => hs)
    [⟨"x-CuStOm-HeAdEr", "v1"⟩, ⟨"ACCEPT", "t"⟩] [⟨"sErVeR", "h"⟩] rfl rfl

/-- Claim C3: when the request-phase handler returns a synthetic response,
the outbound transport is never invoked for that exchange and the synthetic
response is exactly what is returned to the client. -/
theorem synthetic_response_short_circuits
    (env : PipelineEnv) (clientAddr : SocketAddr) (req : HttpRequest)
    (syn : HttpResponse)
    (h : env.onRequest req clientAddr = RequestOrResponse.response syn) :
    handleRequest env clientAddr req
      = { response := syn, transportInvoked := false } := by
  simp [handleRequest, h]

/-- Witness for C3: a handler that answers 403 to every request
short-circuits a concrete exchange. -/
theorem synthetic_response_short_circuits_witness :
    handleRequest
      ⟨fun _ _ => RequestOrResponse.response ⟨403, [], "blocked"⟩,
       fun res _ => res, fun _ => Except.error "unreachable"⟩
      localAddr ⟨"/blocked/a", []⟩
      = { response := ⟨403, [], "blocked"⟩, transportInvoked := false } :=
  synthetic_response_short_circuits
    ⟨fun _ _ => RequestOrResponse.response ⟨403, [], "blocked"⟩,
     fun res _ => res, fun _ => Except.error "unreachable"⟩
    localAddr ⟨"/blocked/a", []⟩ ⟨403, [], "blocked"⟩ rfl

/-- Claim C7: a forwarded request whose upstream transport call fails
yields a 502 synthetic response to the client, and the connection remains
usable — requests before and after the failing one are served exactly as
they would be on their own. -/
theorem upstream_failure_yields_502_connection_usable
    (env : PipelineEnv) (clientAddr : SocketAddr) (req req2 : HttpRequest)
    (e : String) (pre post : List HttpRequest)
    (h1 : env.onRequest req clientAddr = RequestOrResponse.request req2)
    (h2 : env.transport req2 = Except.error e) :
    handleRequest env clientAddr req
      = { response := badGateway, transportInvoked := true }
    ∧ badGateway.status = 502
    ∧ serveConnection env clientAddr (pre ++ req :: post)
      = serveConnection env clientAddr pre
        ++ { response := badGateway, transportInvoked := true }
          :: serveConnection env clientAddr post := by
  have hh : handleRequest env clientAddr req
      = { response := badGateway, transportInvoked := true } := by
    simp [handleRequest, h1, h2]
  refine ⟨hh, rfl, ?_⟩
  simp [serveConnection, hh]

/-- Witness for C7: a transport that always fails, between two successfully
short-circuited requests. -/
theorem upstream_failure_yields_502_connection_usable_witness :
    handleRequest
      ⟨fun r _ => RequestOrResponse.request r, fun res _ => res,
       fun _ => Except.error "refused"⟩
      localAddr ⟨"/a", []⟩
      = { response := badGateway, transportInvoked := true }
    ∧ badGateway.status = 502
    ∧ serveConnection
        ⟨fun r _ => RequestOrResponse.request r, fun res _ => res,
         fun _ => Except.error "refused"⟩
        localAddr ([⟨"/pre", []⟩] ++ ⟨"/a", []⟩ :: [⟨"/post", []⟩])
      = serveConnection
          ⟨fun r _ => RequestOrResponse.request r, fun res _ => res,
           fun _ => Except.error "refused"⟩
          localAddr [⟨"/pre", []⟩]
        ++ { response := badGateway, transportInvoked := true }
          :: serveConnection
            ⟨fun r _ => RequestOrResponse.request r, fun res _ => res,
             fun _ => Except.error "refused"⟩
            localAddr [⟨"/post", []⟩] :=
  upstream_failure_yields_502_connection_usable
    ⟨fun r _ => RequestOrResponse.request r, fun res _ => res,
     fun _ => Except.error "refused"⟩
    localAddr ⟨"/a", []⟩ ⟨"/a", []⟩ "refused" [⟨"/pre", []⟩] [⟨"/post", []⟩]
    rfl rfl

/-- A lookup in a well-formed cache returns an identity for the looked-up
hostname. -/
theorem lookupCache_wf (cache : CertCache) (host : String)
    (ident : ServerIdentity) (hwf : cacheWF cache)
    (h : lookupCache cache host = some ident) : ident.subjectHost = host := by
  induction cache with
  | nil => simp [lookupCache] at h
  | cons p rest ih =>
    obtain ⟨hname, hid⟩ := p
    by_cases hc : hname = host
    · subst hc
      simp [lookupCache] at h
      subst h
      exact hwf (hname, hid) (List.mem_cons_self _ _)
    · simp [lookupCache, hc] at h
      exact ih (fun q hq => hwf q (List.mem_cons_of_mem _ hq)) h

/-- `issue` always returns an identity whose subject/SAN is the requested
hostname. -/
theorem issue_fst_subject (ca : CertAuthority) (cache : CertCache)
    (host : String) (hwf : cacheWF cache) :
    (issue ca cache host).1.subjectHost = host := by
  cases hl : lookupCache cache host with
  | none => simp [issue, hl, CertAuthority.mintFor]
  | some ident =>
    simp [issue, hl]
    exact lookupCache_wf cache host ident hwf hl

/-- `issue` preserves cache well-formedness. -/
theorem issue_preserves_wf (ca : CertAuthority) (cache : CertCache)
    (host : String) (hwf : cacheWF cache) : cacheWF (issue ca cache host).2 := by
  cases hl : lookupCache cache host with
  | some ident => simpa [issue, hl] using hwf
  | none =>
    intro p hp
    simp [issue, hl] at hp
    rcases hp with hp | hp
    · subst hp
      simp [CertAuthority.mintFor]
    · exact hwf p hp

/-- After `issue`, the cache maps the hostname to the identity just
returned. -/
theorem issue_then_lookup (ca : CertAuthority) (cache : CertCache)
    (host : String) :
    lookupCache (issue ca cache host).2 host = some (issue ca cache host).1 := by
  cases hl : lookupCache cache host with
  | some ident => simp [issue, hl]
  | none => simp [issue, hl, lookupCache]

/-- Claim C6: two sequential CONNECT tunnels to hostname `h` obtain the
identical cached identity (same subject/SAN for `h`), and a tunnel to a
different hostname `h2` obtains an identity whose subject is `h2` — never
`h`'s certificate. -/
theorem cert_cache_reuse_and_isolation
    (ca : CertAuthority) (cache : CertCache) (h h2 : String)
    (hne : h2 ≠ h) (hwf : cacheWF cache) :
    (issue ca (issue ca cache h).2 h).1 = (issue ca cache h).1
    ∧ (issue ca cache h).1.subjectHost = h
    ∧ (issue ca (issue ca (issue ca cache h).2 h).2 h2).1.subjectHost = h2
    ∧ (issue ca (issue ca (issue ca cache h).2 h).2 h2).1 ≠ (issue ca cache h).1 := by
  have wf1 : cacheWF (issue ca cache h).2 := issue_preserves_wf ca cache h hwf
  have wf2 : cacheWF (issue ca (issue ca cache h).2 h).2 :=
    issue_preserves_wf ca _ h wf1
  have e1 : (issue ca (issue ca cache h).2 h).1 = (issue ca cache h).1 := by
    have hl := issue_then_lookup ca cache h
    set p := issue ca cache h with hp
    simp [issue, hl]
  have s1 : (issue ca cache h).1.subjectHost = h := issue_fst_subject ca cache h hwf
  have s2 : (issue ca (issue ca (issue ca cache h).2 h).2 h2).1.subjectHost = h2 :=
    issue_fst_subject ca _ h2 wf2
  refine ⟨e1, s1, s2, ?_⟩
  intro heq
  apply hne
  rw [← s2, heq, s1]

/-- Witness for C6: a fresh issuer, hosts `example.com` and `other.net`. -/
theorem cert_cache_reuse_and_isolation_witness :
    (issue ⟨fun _ => 0⟩ (issue ⟨fun _ => 0⟩ [] "example.com").2 "example.com").1
      = (issue ⟨fun _ => 0⟩ [] "example.com").1
    ∧ (issue ⟨fun _ => 0⟩ [] "example.com").1.subjectHost = "example.com"
    ∧ (issue ⟨fun _ => 0⟩
        (issue ⟨fun _ => 0⟩ (issue ⟨fun _ => 0⟩ [] "example.com").2 "example.com").2
        "other.net").1.subjectHost = "other.net"
    ∧ (issue ⟨fun _ => 0⟩
        (issue ⟨fun _ => 0⟩ (issue ⟨fun _ => 0⟩ [] "example.com").2 "example.com").2
        "other.net").1 ≠ (issue ⟨fun _ => 0⟩ [] "example.com").1 :=
  cert_cache_reuse_and_isolation ⟨fun _ => 0⟩ [] "example.com" "other.net"
    (by decide) (fun p hp => absurd hp (List.not_mem_nil p))

/-- Claim C9: a frame the handler drops (returns `none` for) is never
written to the opposite stream, and the other direction's relay is
unaffected: the bridge output over traces containing the dropped frames
equals the output over the traces without them, in both directions. -/
theorem dropped_frame_never_forwarded
    (onClientFrame onServerFrame : Frame → Option Frame)
    (pre post spre spost : List Frame) (f g : Frame)
    (h1 : onClientFrame f = none) (h2 : onServerFrame g = none) :
    bridge onClientFrame onServerFrame (pre ++ f :: post) (spre ++ g :: spost)
      = bridge onClientFrame onServerFrame (pre ++ post) (spre ++ spost) := by
  simp [bridge, relay, List.filterMap_append, List.filterMap_cons, h1, h2]

/-- Witness for C9: handlers that drop the zero frame, concrete traces. -/
theorem dropped_frame_never_forwarded_witness :
    bridge (fun fr => if fr.payload = 0 then none else some fr)
      (fun fr => if fr.payload = 0 then none else some fr)
      ([⟨1⟩] ++ ⟨0⟩ :: [⟨2⟩]) ([⟨3⟩] ++ ⟨0⟩ :: [⟨4⟩])
      = bridge (fun fr => if fr.payload = 0 then none else some fr)
        (fun fr => if fr.payload = 0 then none else some fr)
        ([⟨1⟩] ++ [⟨2⟩]) ([⟨3⟩] ++ [⟨4⟩]) :=
  dropped_frame_never_forwarded
    (fun fr => if fr.payload = 0 then none else some fr)
    (fun fr => if fr.payload = 0 then none else some fr)
    [⟨1⟩] [⟨2⟩] [⟨3⟩] [⟨4⟩] ⟨0⟩ ⟨0⟩ rfl rfl

/-- Claim C10: every request dispatched through the service returned by
`Proxy::service` is handled with the fixed client address `127.0.0.1:80`,
whatever the actual peer is, and constructing the context never fails (the
parse of the literal succeeds). -/
theorem service_uses_fixed_client_addr (actualPeer : SocketAddr)
    (req : HttpRequest) :
    serviceCtxForRequest actualPeer req = some { clientAddr := localAddr } := rfl

end Hudsucker
